import Mathlib

/-!
Shallow embedding of the actor-framework core: the send helpers of
`caf/send.hpp` (`send_as`, `anon_send`, `anon_send_exit` and the deprecated
`send_tuple_*` surface), the `actor_registry` header (the
`await_running_count_equal` wait loop and the `get` accessors), and the
mailbox contract of the specification.  Side-effecting helpers are modelled
as functions returning the list of `enqueue` calls they perform; the
registry's condition-variable wait is modelled over a trace of
notifications.
-/

/-- Actor identifiers. -/
abbrev actor_id := Nat

/-- An actor address (`actor_addr`), possibly the invalid address. -/
inductive actor_addr where
  | invalid
  | addr (id : actor_id)
deriving DecidableEq, Repr

/-- The sentinel `invalid_actor_addr`. -/
def invalid_actor_addr : actor_addr := actor_addr.invalid

/-- A strong actor handle (`actor`), possibly `invalid_actor`. -/
inductive actor where
  | invalid
  | valid (id : actor_id)
deriving DecidableEq, Repr

/-- The sentinel `invalid_actor`. -/
def invalid_actor : actor := actor.invalid

/-- The method `actor::address()`: the invalid handle yields the invalid
address. -/
def actor.address : actor → actor_addr
  | actor.invalid => actor_addr.invalid
  | actor.valid i => actor_addr.addr i

/-- A channel handle (`channel`), possibly null; `if (!to)` in the C++ code
tests for the null case. -/
inductive channel where
  | null
  | valid (id : actor_id)
deriving DecidableEq, Repr

/-- The enum `message_priority`. -/
inductive message_priority where
  | normal
  | high
deriving DecidableEq, Repr

/-- Modelled from the spec: `message_id` is an opaque 64-bit routing token
carrying request/response correlation bits and a priority bit
(`caf/message_id.hpp` is not among the source files; only its use sites in
`send.hpp` are).  The correlation bits are kept abstract and the priority
bit explicit. -/
structure message_id where
  request_bits : Nat
  high_prio_bit : Bool
deriving DecidableEq, Repr

/-- The value `message_id{}` produced by the default constructor: no
correlation, normal priority. -/
def message_id.default_id : message_id := ⟨0, false⟩

/-- The method `message_id::with_high_priority()`: sets the priority bit. -/
def message_id.with_high_priority (m : message_id) : message_id :=
  { m with high_prio_bit := true }

/-- The priority-bit observer on a `message_id`. -/
def message_id.is_high_priority (m : message_id) : Bool := m.high_prio_bit

/-- The system message `exit_msg`: source address and 32-bit exit reason. -/
structure exit_msg where
  source : actor_addr
  reason : Nat
deriving DecidableEq, Repr

/-- A type-erased `message`: a tuple of (abstract) values or a wrapped
`exit_msg` payload. -/
inductive message where
  | values (vs : List Nat)
  | exit (e : exit_msg)
deriving DecidableEq, Repr

/-- An argument pack `Vs...` handed to a variadic send helper: a pack of
ordinary values, a pack holding a single `exit_msg`, or a single already
built `message`. -/
inductive send_args where
  | values (vs : List Nat)
  | exit_values (e : exit_msg)
  | packed (m : message)
deriving DecidableEq, Repr

/-- The factory `make_message(vs...)`: builds a message from an argument
pack; applied to a single `message` argument it returns that message
unchanged. -/
def make_message : send_args → message
  | send_args.values vs => message.values vs
  | send_args.exit_values e => message.exit e
  | send_args.packed m => m

/-- One call to `enqueue` on a channel.  Every call site in `send.hpp`
passes four arguments: the sender address, the message id, the message, and
an `execution_unit*` host pointer (always `nullptr` in the send helpers).
The `target` field records the channel object the method is invoked on. -/
structure enqueue_call where
  target : actor_id
  sender : actor_addr
  mid : message_id
  content : message
  host : Option Unit
deriving DecidableEq, Repr

/-- The number of arguments passed to `enqueue` at every call site in
`send.hpp` (`to->enqueue(from.address(), mid, make_message(...), nullptr)`):
sender address, message id, message, execution-unit host. -/
def enqueue_arity : Nat := 4

/-- The helper `send_as(from, prio, to, vs...)` of `send.hpp` lines 39-49,
returning the list of `enqueue` calls it performs.  A null channel is
checked first and causes an early return with no enqueue; otherwise a
default-constructed message id is taken with high priority exactly when
`prio` is high. -/
def send_as (from_ : actor) (prio : message_priority) (to_ : channel)
    (vs : send_args) : List enqueue_call :=
  match to_ with
  | channel.null => []
  | channel.valid t =>
    let mid := message_id.default_id
    [⟨t, from_.address,
      if prio = message_priority.high then mid.with_high_priority else mid,
      make_message vs, none⟩]

/-- The two-argument overload `send_as(from, to, vs...)` of `send.hpp`
lines 54-57: delegates with normal priority. -/
def send_as_normal (from_ : actor) (to_ : channel) (vs : send_args) :
    List enqueue_call :=
  send_as from_ message_priority.normal to_ vs

/-- The helper `anon_send(prio, to, vs...)` of `send.hpp` lines 94-97. -/
def anon_send (prio : message_priority) (to_ : channel) (vs : send_args) :
    List enqueue_call :=
  send_as invalid_actor prio to_ vs

/-- The helper `anon_send(to, vs...)` of `send.hpp` lines 102-105. -/
def anon_send_normal (to_ : channel) (vs : send_args) : List enqueue_call :=
  send_as invalid_actor message_priority.normal to_ vs

/-- The helper `anon_send_exit(const actor_addr&, uint32_t)` of `send.hpp`
lines 142-149.  The null check precedes `actor_cast<actor>(to)`, so the
cast and the enqueue are reached only on a valid address; the envelope uses
the invalid sender address, a default message id with the high-priority bit
set, and an `exit_msg` built from the invalid address and `reason`. -/
def anon_send_exit (to_ : actor_addr) (reason : Nat) : List enqueue_call :=
  match to_ with
  | actor_addr.invalid => []
  | actor_addr.addr t =>
    [⟨t, invalid_actor_addr, message_id.default_id.with_high_priority,
      make_message (send_args.exit_values ⟨invalid_actor_addr, reason⟩),
      none⟩]

/-- The handle overload `anon_send_exit(const ActorHandle&, uint32_t)` of
`send.hpp` lines 154-157: delegates through `to.address()`. -/
def anon_send_exit_handle (to_ : actor) (reason : Nat) : List enqueue_call :=
  anon_send_exit to_.address reason

/-- The deprecated `send_tuple_as(from, to, msg)` of `send.hpp` lines
171-173: forwards the built message to the two-argument `send_as`. -/
def send_tuple_as (from_ : actor) (to_ : channel) (msg : message) :
    List enqueue_call :=
  send_as_normal from_ to_ (send_args.packed msg)

/-- The deprecated `send_tuple_as(from, to, prio, msg)` of `send.hpp` lines
175-178. -/
def send_tuple_as_prio (from_ : actor) (to_ : channel)
    (prio : message_priority) (msg : message) : List enqueue_call :=
  send_as from_ prio to_ (send_args.packed msg)

/-- The deprecated `anon_send_tuple(to, msg)` of `send.hpp` lines
180-182. -/
def anon_send_tuple (to_ : channel) (msg : message) : List enqueue_call :=
  send_as_normal invalid_actor to_ (send_args.packed msg)

/-- The deprecated `anon_send_tuple(to, prio, msg)` of `send.hpp` lines
184-187. -/
def anon_send_tuple_prio (to_ : channel) (prio : message_priority)
    (msg : message) : List enqueue_call :=
  send_as invalid_actor prio to_ (send_args.packed msg)

/-- Modelled from the spec: the mailbox state field, drawn from
Empty/Ready/Blocked/Closed (the mailbox implementation is not among the
source files). -/
inductive mailbox_state where
  | Empty
  | Ready
  | Blocked
  | Closed
deriving DecidableEq, Repr

/-- Modelled from the spec: the result of a mailbox push, one of
Unblocked/Queued/Closed. -/
inductive push_result where
  | Unblocked
  | Queued
  | Closed
deriving DecidableEq, Repr

/-- An envelope: one unit in a mailbox — sender, message id, payload. -/
structure envelope where
  sender : actor_addr
  mid : message_id
  content : message
deriving DecidableEq, Repr

/-- Modelled from the spec: the per-actor mailbox (its implementation is
not among the source files).  Two FIFO lanes, high priority and normal
priority, with the front of each list the oldest envelope, plus the state
field. -/
structure mailbox where
  highQ : List envelope
  normalQ : List envelope
  state : mailbox_state
deriving DecidableEq, Repr

/-- A freshly created, empty, open mailbox. -/
def mailbox.init : mailbox := ⟨[], [], mailbox_state.Empty⟩

/-- Modelled from the spec: `push(sender, mid, payload)` returns Closed on
a closed mailbox and enqueues nothing; otherwise it appends the envelope to
the lane selected by the message id's priority bit, and returns Unblocked
iff the push transitioned Blocked to Ready, else Queued. -/
def mailbox.push (mb : mailbox) (e : envelope) : mailbox × push_result :=
  if mb.state = mailbox_state.Closed then
    (mb, push_result.Closed)
  else
    let mb' :=
      if e.mid.is_high_priority then
        { mb with highQ := mb.highQ ++ [e], state := mailbox_state.Ready }
      else
        { mb with normalQ := mb.normalQ ++ [e],
                  state := mailbox_state.Ready }
    if mb.state = mailbox_state.Blocked then (mb', push_result.Unblocked)
    else (mb', push_result.Queued)

/-- Modelled from the spec: `pop()` drains all of the high lane before any
of the normal lane, within-lane FIFO; it returns none iff the mailbox holds
no envelope, transitioning the state to Blocked in that case (a closed
mailbox stays Closed and just reports empty). -/
def mailbox.pop (mb : mailbox) : Option envelope × mailbox :=
  match mb.highQ with
  | e :: rest => (some e, { mb with highQ := rest })
  | [] =>
    match mb.normalQ with
    | e :: rest => (some e, { mb with normalQ := rest })
    | [] =>
      if mb.state = mailbox_state.Closed then (none, mb)
      else (none, { mb with state := mailbox_state.Blocked })

/-- Modelled from the spec: `close()` sets the state to Closed and leaves
the queued envelopes in place, so that pop drains remaining messages after
the close. -/
def mailbox.close (mb : mailbox) : mailbox :=
  { mb with state := mailbox_state.Closed }

/-- The number of queued envelopes. -/
def mailbox.size (mb : mailbox) : Nat :=
  mb.highQ.length + mb.normalQ.length

/-- The pop-until-none loop a worker runs to drain a mailbox, written with
an explicit fuel bound on the number of iterations; `mailbox.drain`
instantiates it with a bound proven sufficient. -/
def drain_go : Nat → mailbox → List envelope × mailbox
  | 0, mb => ([], mb)
  | fuel + 1, mb =>
    match mb.pop with
    | (none, mb') => ([], mb')
    | (some e, mb') =>
      let r := drain_go fuel mb'
      (e :: r.1, r.2)

/-- Draining a mailbox: pop until pop reports empty, collecting the
envelopes in pop order and returning the final mailbox.  Each successful
pop removes one envelope, so `size + 1` iterations always reach the
terminal none-pop. -/
def mailbox.drain (mb : mailbox) : List envelope × mailbox :=
  drain_go (mb.size + 1) mb

/-- A sequence of pushes, keeping only the mailbox. -/
def mailbox.push_all (mb : mailbox) (es : List envelope) : mailbox :=
  es.foldl (fun m e => (m.push e).1) mb

/-- Modelled from the spec: the registry state — the id map `entries_`, the
name map `named_entries_`, and the set `running_` of running actor ids.
The maps are association lists standing in for the unordered maps. -/
structure actor_registry where
  entries : List (actor_id × actor)
  named_entries : List (String × actor)
  running : Finset actor_id
deriving DecidableEq

/-- Modelled from the spec: `get_impl(actor_id)` — declared but not defined
in the source files — returns the strong handle stored under `key` in the
id map, or the invalid sentinel when no mapping exists. -/
def actor_registry.get_impl (reg : actor_registry) (key : actor_id) :
    actor :=
  match reg.entries.lookup key with
  | some v => v
  | none => invalid_actor

/-- Modelled from the spec: `get_impl(const std::string&)` — declared but
not defined in the source files — returns the handle stored under `key` in
the name map, or the invalid sentinel when no mapping exists. -/
def actor_registry.get_impl_name (reg : actor_registry) (key : String) :
    actor :=
  match reg.named_entries.lookup key with
  | some v => v
  | none => invalid_actor

/-- The cast `actor_cast<strong_actor_ptr>` at the default template
argument of `get`: the identity on handles. -/
def actor_cast (a : actor) : actor := a

/-- The accessor `get(actor_id)` of the registry header (lines 40-43):
`actor_cast<T>(get_impl(key))`.  The method is const; it is modelled as
state passing that returns the registry unchanged. -/
def actor_registry.get (reg : actor_registry) (key : actor_id) :
    actor × actor_registry :=
  (actor_cast (reg.get_impl key), reg)

/-- The accessor `get(const std::string&)` of the registry header (lines
84-87), modelled like `actor_registry.get`. -/
def actor_registry.get_name (reg : actor_registry) (key : String) :
    actor × actor_registry :=
  (actor_cast (reg.get_impl_name key), reg)

/-- The wait loop of `await_running_count_equal(expected, cb)` (registry
header lines 74-81), modelled over a trace of condition-variable
notifications: the caller holds `running_mtx_` and reads the size of
`running_`; each `running_cv_.wait(guard)` returns with the next state of
the running set taken from `signals`, after which `cb()` runs exactly once.
The loop exits when the size equals `expected`; exhausting the trace with
the size still different leaves the caller blocked (`none`).  On exit the
result carries the number of `cb` invocations and the final running set. -/
def await_running_count_equal (expected : Nat) (s : Finset actor_id)
    (signals : List (Finset actor_id)) : Option (Nat × Finset actor_id) :=
  if s.card = expected then some (0, s)
  else
    match signals with
    | [] => none
    | s' :: rest =>
      match await_running_count_equal expected s' rest with
      | none => none
      | some kf => some (kf.1 + 1, kf.2)

/-- A trace of running-set states in which every step removes exactly one
present id — the shape of the updates that shrink `running_` and broadcast
`running_cv_` (per the spec, the condition variable is signalled when the
set's size changes on an erase). -/
def shrink_chain : Finset actor_id → List (Finset actor_id) → Prop
  | _, [] => True
  | s, s' :: rest => (∃ x ∈ s, s' = s.erase x) ∧ shrink_chain s' rest

/-- A concrete registry used to exercise the accessors. -/
def sample_registry : actor_registry :=
  ⟨[(1, actor.valid 1)], [("sys", actor.valid 2)], {1, 2}⟩

/-- Helper: the fuel-bounded drain loop, run with enough fuel, pops the
high lane and then the normal lane in FIFO order and leaves an empty
mailbox whose state is Closed if it was Closed and Blocked otherwise. -/
theorem drain_go_spec (fuel : Nat) :
    ∀ (hq nq : List envelope) (st : mailbox_state),
      hq.length + nq.length < fuel →
      drain_go fuel ⟨hq, nq, st⟩ =
        (hq ++ nq,
         ⟨[], [],
          if st = mailbox_state.Closed then mailbox_state.Closed
          else mailbox_state.Blocked⟩) := by
  induction fuel with
  | zero => intro hq nq st h; omega
  | succ fuel ih =>
    intro hq nq st h
    match hq with
    | e :: rest =>
      simp only [drain_go, mailbox.pop]
      rw [ih rest nq st (by simp at h ⊢; omega)]
      simp
    | [] =>
      match nq with
      | e :: rest =>
        simp only [drain_go, mailbox.pop]
        rw [ih [] rest st (by simp at h ⊢; omega)]
        simp
      | [] =>
        by_cases hst : st = mailbox_state.Closed <;>
          simp [drain_go, mailbox.pop, hst]

/-- Helper: characterisation of `mailbox.drain` on an arbitrary mailbox. -/
theorem drain_spec (hq nq : List envelope) (st : mailbox_state) :
    mailbox.drain ⟨hq, nq, st⟩ =
      (hq ++ nq,
       ⟨[], [],
        if st = mailbox_state.Closed then mailbox_state.Closed
        else mailbox_state.Blocked⟩) := by
  unfold mailbox.drain
  exact drain_go_spec _ hq nq st (by simp [mailbox.size])

/-- Helper: a push on an open mailbox appends to the lane selected by the
priority bit and moves the state to Ready. -/
theorem push_open (mb : mailbox) (e : envelope)
    (h : mb.state ≠ mailbox_state.Closed) :
    (mb.push e).1 =
      if e.mid.is_high_priority then
        { mb with highQ := mb.highQ ++ [e], state := mailbox_state.Ready }
      else
        { mb with normalQ := mb.normalQ ++ [e],
                  state := mailbox_state.Ready } := by
  simp only [mailbox.push, if_neg h]
  by_cases hb : mb.state = mailbox_state.Blocked <;> simp [hb]

/-- Helper: a sequence of pushes on an open mailbox appends the highs to
the high lane and the normals to the normal lane, in push order. -/
theorem push_all_spec (es : List envelope) :
    ∀ (mb : mailbox), mb.state ≠ mailbox_state.Closed →
      mb.push_all es =
        ⟨mb.highQ ++ es.filter (fun e => e.mid.is_high_priority),
         mb.normalQ ++ es.filter (fun e => !e.mid.is_high_priority),
         if es.isEmpty then mb.state else mailbox_state.Ready⟩ := by
  induction es with
  | nil => intro mb h; simp [mailbox.push_all]
  | cons e rest ih =>
    intro mb h
    have step : mb.push_all (e :: rest) = ((mb.push e).1).push_all rest := by
      simp [mailbox.push_all]
    rw [step, push_open mb e h]
    by_cases hp : e.mid.is_high_priority
    · rw [ih _ (by simp [hp])]
      simp [hp, List.filter_cons]
    · rw [ih _ (by simp [hp])]
      simp [hp, List.filter_cons]

/-- C3: for every mailbox and every sequence of pushes, draining by pop
returns all queued high-priority envelopes before any normal-priority
envelope, each lane in FIFO order of enqueue — in particular a
high-priority envelope enqueued after earlier normal-priority envelopes is
delivered before all of them. -/
theorem C3_priority_lanes (mb : mailbox) (es : List envelope)
    (h : mb.state ≠ mailbox_state.Closed) :
    ((mb.push_all es).drain).1 =
      (mb.highQ ++ es.filter (fun e => e.mid.is_high_priority)) ++
      (mb.normalQ ++ es.filter (fun e => !e.mid.is_high_priority)) := by
  rw [push_all_spec es mb h, drain_spec]

/-- Witness for C3: one normal-priority push followed by one high-priority
push drains high first, then normal. -/
theorem C3_priority_lanes_witness :
    ((mailbox.init.push_all
        [⟨actor_addr.invalid, message_id.default_id, message.values [1]⟩,
         ⟨actor_addr.invalid, message_id.default_id.with_high_priority,
          message.values [2]⟩]).drain).1 =
      [⟨actor_addr.invalid, message_id.default_id.with_high_priority,
        message.values [2]⟩,
       ⟨actor_addr.invalid, message_id.default_id, message.values [1]⟩] := by
  rw [C3_priority_lanes mailbox.init
    [⟨actor_addr.invalid, message_id.default_id, message.values [1]⟩,
     ⟨actor_addr.invalid, message_id.default_id.with_high_priority,
      message.values [2]⟩] (by decide)]
  decide

/-- C7: close is idempotent; after close every push returns Closed and
changes nothing; draining by pop first returns each envelope queued before
the close, high lane before normal lane, each in FIFO order, and afterwards
pop reports empty. -/
theorem C7_close_mailbox (mb : mailbox) (e : envelope) :
    mb.close.close = mb.close ∧
    mb.close.push e = (mb.close, push_result.Closed) ∧
    (mb.close.drain).1 = mb.highQ ++ mb.normalQ ∧
    ((mb.close.drain).2).pop = (none, (mb.close.drain).2) := by
  obtain ⟨hq, nq, st⟩ := mb
  refine ⟨rfl, ?_, ?_, ?_⟩
  · simp [mailbox.push, mailbox.close]
  · have : mailbox.close ⟨hq, nq, st⟩ = ⟨hq, nq, mailbox_state.Closed⟩ := rfl
    rw [this, drain_spec]
  · have : mailbox.close ⟨hq, nq, st⟩ = ⟨hq, nq, mailbox_state.Closed⟩ := rfl
    rw [this, drain_spec]
    simp [mailbox.pop]

/-- C8: the registry accessors `get(id)` and `get(name)` return the stored
strong handle when a mapping exists and the invalid sentinel otherwise;
they are total and leave the registry state unchanged. -/
theorem C8_registry_get (reg : actor_registry) (i : actor_id)
    (name : String) :
    (reg.get i).2 = reg ∧ (reg.get_name name).2 = reg ∧
    (reg.get i).1 = (reg.entries.lookup i).getD invalid_actor ∧
    (reg.get_name name).1 =
      (reg.named_entries.lookup name).getD invalid_actor := by
  refine ⟨rfl, rfl, ?_, ?_⟩
  · show reg.get_impl i = _
    unfold actor_registry.get_impl
    cases reg.entries.lookup i <;> simp
  · show reg.get_impl_name name = _
    unfold actor_registry.get_impl_name
    cases reg.named_entries.lookup name <;> simp

/-- Counterexample for C2: the claim says `enqueue` accepts exactly three
arguments, but every call site in `send.hpp` passes four (sender address,
message id, message, execution-unit host). -/
theorem C2_counterexample : ¬ enqueue_arity = 3 := by decide

/-- C2 (amended): message delivery goes through a single enqueue operation
accepting four arguments — sender address, message id, message, and an
execution-unit host pointer that the send helpers always pass as null —
and every send helper (send_as, anon_send, anon_send_exit) delivers through
it, performing at most one enqueue per call. -/
theorem C2_amended_enqueue (from_ : actor) (prio : message_priority)
    (to_ : channel) (vs : send_args) (ad : actor_addr) (hd : actor)
    (reason : Nat) :
    enqueue_arity = 4 ∧
    ((send_as from_ prio to_ vs).all fun c => c.host.isNone) = true ∧
    ((send_as_normal from_ to_ vs).all fun c => c.host.isNone) = true ∧
    ((anon_send prio to_ vs).all fun c => c.host.isNone) = true ∧
    ((anon_send_normal to_ vs).all fun c => c.host.isNone) = true ∧
    ((anon_send_exit ad reason).all fun c => c.host.isNone) = true ∧
    ((anon_send_exit_handle hd reason).all fun c => c.host.isNone) = true ∧
    (send_as from_ prio to_ vs).length ≤ 1 ∧
    (anon_send prio to_ vs).length ≤ 1 ∧
    (anon_send_exit ad reason).length ≤ 1 := by
  cases to_ <;> cases ad <;> cases hd <;>
    simp [send_as, send_as_normal, anon_send, anon_send_normal,
      anon_send_exit, anon_send_exit_handle, actor.address, enqueue_arity]

/-- C4: for every valid actor address and 32-bit reason, anon_send_exit
performs exactly one enqueue at the target, with the high-priority bit set
on the message id, an exit message carrying the reason as payload, and the
invalid sender address. -/
theorem C4_anon_send_exit (i : actor_id) (reason : Nat)
    (h : reason < 2 ^ 32) :
    anon_send_exit (actor_addr.addr i) reason =
      [⟨i, actor_addr.invalid, message_id.default_id.with_high_priority,
        message.exit ⟨actor_addr.invalid, reason⟩, none⟩] ∧
    (message_id.default_id.with_high_priority).is_high_priority = true :=
  ⟨rfl, rfl⟩

/-- Witness for C4 at target 3 and reason 7. -/
theorem C4_anon_send_exit_witness :
    anon_send_exit (actor_addr.addr 3) 7 =
      [⟨3, actor_addr.invalid, message_id.default_id.with_high_priority,
        message.exit ⟨actor_addr.invalid, 7⟩, none⟩] ∧
    (message_id.default_id.with_high_priority).is_high_priority = true :=
  C4_anon_send_exit 3 7 (by decide)

/-- C5: for every valid target channel, priority and argument pack,
send_as performs exactly one enqueue whose message is built from the pack
and whose message id has the high-priority bit set iff the priority is
high; under normal priority the default message id is passed unchanged. -/
theorem C5_send_as (from_ : actor) (prio : message_priority) (i : actor_id)
    (vs : send_args) :
    send_as from_ prio (channel.valid i) vs =
      [⟨i, from_.address,
        if prio = message_priority.high then
          message_id.default_id.with_high_priority
        else message_id.default_id,
        make_message vs, none⟩] ∧
    ((if prio = message_priority.high then
        message_id.default_id.with_high_priority
      else message_id.default_id).is_high_priority = true ↔
      prio = message_priority.high) := by
  refine ⟨rfl, ?_⟩
  cases prio <;> decide

/-- C6: anon_send with a priority is exactly send_as from the invalid
actor at that priority, and the priority-less anon_send is exactly send_as
from the invalid actor at normal priority. -/
theorem C6_anon_send_equiv (prio : message_priority) (to_ : channel)
    (vs : send_args) :
    anon_send prio to_ vs = send_as invalid_actor prio to_ vs ∧
    anon_send_normal to_ vs =
      send_as invalid_actor message_priority.normal to_ vs :=
  ⟨rfl, rfl⟩

/-- C9: on a null target handle or invalid address, send_as, anon_send and
anon_send_exit return normally with no enqueue performed and no error
signalled (their result is the empty call list; the null check precedes
any dereference of the target). -/
theorem C9_null_target (from_ : actor) (prio : message_priority)
    (vs : send_args) (reason : Nat) :
    send_as from_ prio channel.null vs = [] ∧
    send_as_normal from_ channel.null vs = [] ∧
    anon_send prio channel.null vs = [] ∧
    anon_send_normal channel.null vs = [] ∧
    anon_send_exit actor_addr.invalid reason = [] ∧
    anon_send_exit_handle invalid_actor reason = [] :=
  ⟨rfl, rfl, rfl, rfl, rfl, rfl⟩

/-- C10: the deprecated helpers send_tuple_as and anon_send_tuple, in both
their priority-less and priority-taking forms, behave exactly as the
corresponding send_as calls (with the invalid actor as sender for the
anonymous forms). -/
theorem C10_deprecated_equiv (from_ : actor) (to_ : channel)
    (prio : message_priority) (msg : message) :
    send_tuple_as from_ to_ msg =
      send_as_normal from_ to_ (send_args.packed msg) ∧
    send_tuple_as_prio from_ to_ prio msg =
      send_as from_ prio to_ (send_args.packed msg) ∧
    anon_send_tuple to_ msg =
      send_as_normal invalid_actor to_ (send_args.packed msg) ∧
    anon_send_tuple_prio to_ prio msg =
      send_as invalid_actor prio to_ (send_args.packed msg) :=
  ⟨rfl, rfl, rfl, rfl⟩

/-- Helper: getLastD of a cons steps to the tail with the head as the new
default. -/
theorem list_getLastD_cons {A : Type} (a d : A) (l : List A) :
    (a :: l).getLastD d = l.getLastD a := by
  cases l <;> simp [List.getLastD]

/-- C1: the await_running_count_equal wait loop blocks the caller until the
running set's size equals `expected` — if the size differs at entry and at
every notified state, the caller stays blocked — and when the notifications
are exactly the shrinks of the running set reaching `expected`, the loop
returns after the last one with the callback having fired exactly once per
shrink that occurred during the wait. -/
theorem C1_await_running (expected : Nat) (s : Finset actor_id)
    (signals : List (Finset actor_id)) :
    (shrink_chain s signals → s.card = expected + signals.length →
      await_running_count_equal expected s signals =
        some (signals.length, signals.getLastD s) ∧
      (signals.getLastD s).card = expected) ∧
    ((s.card ≠ expected ∧ ∀ t ∈ signals, t.card ≠ expected) →
      await_running_count_equal expected s signals = none) := by
  induction signals generalizing s with
  | nil =>
    constructor
    · intro _ hcard
      simp only [List.length_nil, Nat.add_zero] at hcard
      simp [await_running_count_equal, hcard, List.getLastD]
    · rintro ⟨h1, _⟩
      simp [await_running_count_equal, h1]
  | cons s' rest ih =>
    constructor
    · rintro ⟨⟨x, hx, hs'⟩, hrest⟩ hcard
      have hxcard : s'.card + 1 = s.card := by
        rw [hs']; exact Finset.card_erase_add_one hx
      have hcard' : s'.card = expected + rest.length := by
        simp only [List.length_cons] at hcard; omega
      have hne : ¬ s.card = expected := by omega
      obtain ⟨heq, hc⟩ := (ih s').1 hrest hcard'
      constructor
      · rw [await_running_count_equal, if_neg hne, heq, list_getLastD_cons]
        rfl
      · rwa [list_getLastD_cons]
    · rintro ⟨h1, h2⟩
      have h2' : ∀ t ∈ rest, t.card ≠ expected := fun t ht =>
        h2 t (List.mem_cons_of_mem _ ht)
      have hs'ne : s'.card ≠ expected := h2 s' (List.mem_cons_self _ _)
      have hnone := (ih s').2 ⟨hs'ne, h2'⟩
      rw [await_running_count_equal, if_neg h1, hnone]

/-- Witness for C1: waiting for count 1 on the running set with ids 0 and 1
returns after the single shrink to the set with id 1, with one callback
invocation; waiting for count 0 on a singleton set with no notifications
leaves the caller blocked. -/
theorem C1_await_running_witness :
    (await_running_count_equal 1 ({0, 1} : Finset actor_id)
        [({1} : Finset actor_id)] =
      some (1, [({1} : Finset actor_id)].getLastD
        ({0, 1} : Finset actor_id)) ∧
      ([({1} : Finset actor_id)].getLastD
        ({0, 1} : Finset actor_id)).card = 1) ∧
    await_running_count_equal 0 ({5} : Finset actor_id) [] = none := by
  constructor
  · exact (C1_await_running 1 {0, 1} [{1}]).1
      ⟨⟨0, by decide, by decide⟩, trivial⟩ (by decide)
  · exact (C1_await_running 0 {5} []).2 ⟨by decide, by simp⟩
